import Mathlib

/-!
# Verification of the crime-incident dashboard data pipeline

Shallow embedding of the data pipeline of the dashboard repository:

* `src/utils/dataProcessing.js` — `parseDate`, `cleanRecord`, `processData`,
  `processCrimeTypes`, `processTimeDistribution`;
* `src/utils/useChartData.js` — the filter predicate and the dense 2024
  daily-trend builder;
* `src/main.jsx` (CrimeDataContext) — `parseRow` and `filterData`;
* `src/components/NeighborhoodAnalysis.jsx` — the area rollup;
* `src/components/CrimeTypeChart.jsx` — the ranked category chart data;
* `censusDataProcessing.js` — `loadCensusData`, `extractDataForDC`,
  `calculateDerivedMetrics`.

Modelling conventions:
* JS `Date` values are modelled by `DateVal`: `null`, `invalid`
  (an `Invalid Date` object, whose numeric value is NaN and which is *truthy*),
  or `valid p` with explicit calendar parts.  Comparisons mirror JS semantics:
  any comparison against an invalid date is `false` (NaN), and a comparison
  against JS `null` coerces `null` to the epoch instant `0`.
* JS numbers on the data path are modelled by `ℚ` (none of the verified
  properties depends on IEEE-754 rounding; `toFixed(1)` is modelled as
  rounding to one decimal place).
* Strings are Lean `String`s; `s || default` is modelled by testing `s = ""`.
-/

namespace CrimeDash

/-! ## Calendar dates -/

/-- Calendar/clock components of a JS `Date` (local time). -/
structure DateParts where
  year : Nat
  month : Nat
  day : Nat
  hour : Nat
  minute : Nat
  second : Nat
deriving DecidableEq, Repr

/-- Leap-year rule of the proleptic Gregorian calendar (as used by JS `Date`). -/
def isLeap (y : Nat) : Bool :=
  y % 4 == 0 && (y % 100 != 0 || y % 400 == 0)

/-- Number of days of month `m` (1-based) in year `y`. -/
def daysInMonth (y m : Nat) : Nat :=
  if m == 2 then (if isLeap y then 29 else 28)
  else if m == 4 || m == 6 || m == 9 || m == 11 then 30
  else 31

/-- Well-formed calendar parts: exactly the component ranges a real
(normalised) JS `Date` can exhibit. -/
def DateParts.wf (p : DateParts) : Prop :=
  1 ≤ p.month ∧ p.month ≤ 12 ∧ 1 ≤ p.day ∧ p.day ≤ daysInMonth p.year p.month
    ∧ p.hour < 24 ∧ p.minute < 60 ∧ p.second < 60

instance (p : DateParts) : Decidable p.wf := by
  unfold DateParts.wf; infer_instance

/-- Injective, order-preserving (on well-formed parts) encoding of the
components into a single `Nat`; stands in for the millisecond timestamp for
order comparisons. -/
def DateParts.toMin (p : DateParts) : Nat :=
  ((((p.year * 13 + p.month) * 32 + p.day) * 24 + p.hour) * 60 + p.minute) * 60
    + p.second

/-- The epoch (1970-01-01 00:00:00), the instant JS `null` coerces to in a
relational comparison against a `Date`. -/
def epochParts : DateParts := ⟨1970, 1, 1, 0, 0, 0⟩

/-- Signed position of a date relative to the epoch; the sign agrees with the
sign of the JS millisecond value for well-formed parts. -/
def DateParts.jsVal (p : DateParts) : Int :=
  (p.toMin : Int) - (epochParts.toMin : Int)

/-- The value of a JS variable holding a report/start/end date: `null`, an
`Invalid Date` object, or a valid date. -/
inductive DateVal where
  | null
  | invalid
  | valid (p : DateParts)
deriving DecidableEq, Repr

/-! ## `parseDate` (dataProcessing.js lines 4–15)

date-fns `parse(s, 'yyyy/MM/dd HH:mm:ss', new Date())` is modelled by a
character-level scanner: four year digits, `/`, two month digits, `/`, two day
digits, a space, then `HH:mm:ss`, with the component ranges validated; any
mismatch yields an `Invalid Date` (date-fns never throws here, so the
`try/catch` of `parseDate` is dead code). -/

def digitVal (c : Char) : Nat := c.toNat - '0'.toNat

/-- Read exactly `n` leading decimal digits. -/
def takeDigits : Nat → List Char → Option (Nat × List Char)
  | 0, cs => some (0, cs)
  | n + 1, c :: cs =>
      if c.isDigit then
        match takeDigits n cs with
        | some (v, rest) => some (digitVal c * 10 ^ n + v, rest)
        | none => none
      else none
  | _ + 1, [] => none

/-- Expect a single literal character. -/
def expectChar (c : Char) : List Char → Option (List Char)
  | d :: cs => if d == c then some cs else none
  | [] => none

/-- Scanner for the fixed source format `yyyy/MM/dd HH:mm:ss`. -/
def parseFmt (cs : List Char) : Option DateParts := do
  let (y, cs) ← takeDigits 4 cs
  let cs ← expectChar '/' cs
  let (mo, cs) ← takeDigits 2 cs
  let cs ← expectChar '/' cs
  let (d, cs) ← takeDigits 2 cs
  let cs ← expectChar ' ' cs
  let (h, cs) ← takeDigits 2 cs
  let cs ← expectChar ':' cs
  let (mi, cs) ← takeDigits 2 cs
  let cs ← expectChar ':' cs
  let (s, cs) ← takeDigits 2 cs
  if cs.isEmpty then
    let p : DateParts := ⟨y, mo, d, h, mi, s⟩
    if p.wf then some p else none
  else none

/-- `dateString.replace(/\+\d{2}$/, '')`: strip a trailing two-digit timezone
offset suffix. -/
def stripTZ (cs : List Char) : List Char :=
  match cs.reverse with
  | d2 :: d1 :: '+' :: rest =>
      if d1.isDigit && d2.isDigit then rest.reverse else cs
  | _ => cs

/-- `parseDate` (dataProcessing.js).  An empty string is falsy and yields
`null`; a non-empty string that does not match the format yields an
`Invalid Date` — *not* `null`. -/
def parseDate (s : String) : DateVal :=
  if s = "" then .null
  else
    match parseFmt (stripTZ s.data) with
    | some p => .valid p
    | none => .invalid

/-! ## Numeric coercions (`parseFloat(x) || 0`, `parseInt(x) || 0`) -/

/-- Leading-digit run of a character list as a natural number, with the
remaining characters. -/
def digitsPrefix : List Char → Nat → Nat × List Char
  | c :: cs, acc => if c.isDigit then digitsPrefix cs (acc * 10 + digitVal c) else (acc, c :: cs)
  | [], acc => (acc, [])

/-- Minimal model of `parseFloat`: optional sign, an integer part and an
optional fraction (no exponent — the source data never carries one); `none`
models `NaN`. -/
def parseFloatQ (s : String) : Option ℚ :=
  let cs := s.data.dropWhile (fun c => c == ' ')
  let (neg, cs) := match cs with
    | '-' :: rest => (true, rest)
    | '+' :: rest => (false, rest)
    | _ => (false, cs)
  match cs with
  | c :: _ =>
      if c.isDigit then
        let (ip, rest) := digitsPrefix cs 0
        let frac : ℚ :=
          match rest with
          | '.' :: ds =>
              let digits := ds.takeWhile Char.isDigit
              (digitsPrefix digits 0).1 / (10 ^ digits.length : ℚ)
          | _ => 0
        let v : ℚ := ip + frac
        some (if neg then -v else v)
      else none
  | [] => none

/-- `parseFloat(x) || 0`: `NaN` (and `0` itself, and `-0`) collapse to `0`. -/
def parseFloatOr0 (s : String) : ℚ := (parseFloatQ s).getD 0

/-- Minimal model of `parseInt(x, 10)`: optional sign then leading digits. -/
def parseIntZ (s : String) : Option Int :=
  let cs := s.data.dropWhile (fun c => c == ' ')
  let (neg, cs) := match cs with
    | '-' :: rest => (true, rest)
    | '+' :: rest => (false, rest)
    | _ => (false, cs)
  match cs with
  | c :: _ =>
      if c.isDigit then
        let (ip, _) := digitsPrefix cs 0
        some (if neg then -(ip : Int) else (ip : Int))
      else none
  | [] => none

/-- `parseInt(x) || 0`. -/
def parseIntOr0 (s : String) : Int := (parseIntZ s).getD 0

/-! ## The record normaliser (`cleanRecord`, dataProcessing.js lines 18–69) -/

/-- One decoded CSV row: header-keyed string fields.  `main.jsx` pads every
missing field with the empty string, so all fields are total strings. -/
structure Row where
  LATITUDE : String := ""
  LONGITUDE : String := ""
  X : String := ""
  Y : String := ""
  REPORT_DAT : String := ""
  START_DATE : String := ""
  END_DATE : String := ""
  SHIFT : String := ""
  METHOD : String := ""
  OFFENSE : String := ""
  BLOCK : String := ""
  WARD : String := ""
  ANC : String := ""
  DISTRICT : String := ""
  PSA : String := ""
  NEIGHBORHOOD_CLUSTER : String := ""
  BID : String := ""
  CCN : String := ""
  OBJECTID : String := ""
  BLOCK_GROUP : String := ""
  CENSUS_TRACT : String := ""
  VOTING_PRECINCT : String := ""
deriving DecidableEq, Repr

/-- `record.FIELD || default` for string fields. -/
def orDefault (s d : String) : String := if s = "" then d else s

/-- The canonical `Incident` value produced by `cleanRecord`. -/
structure Incident where
  latitude : ℚ := 0
  longitude : ℚ := 0
  x : ℚ := 0
  y : ℚ := 0
  reportDate : DateVal := .null
  startDate : DateVal := .null
  endDate : DateVal := .null
  shift : String := "UNKNOWN"
  method : String := "UNKNOWN"
  offense : String := "UNKNOWN"
  block : String := ""
  ward : Int := 0
  anc : String := ""
  district : String := ""
  psa : String := ""
  neighborhood : String := ""
  bid : String := ""
  ccn : String := ""
  objectId : String := ""
  blockGroup : String := ""
  censusTract : String := ""
  votingPrecinct : String := ""
deriving DecidableEq, Repr

/-- `cleanRecord` (dataProcessing.js).  The rejection test is the JS
truthiness test `if (!reportDate)`: only a `null` report date (empty source
field) is rejected — an `Invalid Date` object is truthy and passes.  Nothing
in the body can throw, so the `try/catch` is dead code. -/
def cleanRecord (record : Row) : Option Incident :=
  let reportDate := parseDate record.REPORT_DAT
  let startDate := parseDate record.START_DATE
  let endDate := if record.END_DATE ≠ "" then parseDate record.END_DATE else .null
  if reportDate = .null then none
  else some
    { latitude := parseFloatOr0 record.LATITUDE
      longitude := parseFloatOr0 record.LONGITUDE
      x := parseFloatOr0 record.X
      y := parseFloatOr0 record.Y
      reportDate := reportDate
      startDate := startDate
      endDate := endDate
      shift := orDefault record.SHIFT "UNKNOWN"
      method := orDefault record.METHOD "UNKNOWN"
      offense := orDefault record.OFFENSE "UNKNOWN"
      block := record.BLOCK
      ward := parseIntOr0 record.WARD
      anc := record.ANC
      district := record.DISTRICT
      psa := record.PSA
      neighborhood := record.NEIGHBORHOOD_CLUSTER
      bid := record.BID
      ccn := record.CCN
      objectId := record.OBJECTID
      blockGroup := record.BLOCK_GROUP
      censusTract := record.CENSUS_TRACT
      votingPrecinct := record.VOTING_PRECINCT }

/-- The canonical-store construction of `processData`:
`csvData.map(cleanRecord).filter(r => r !== null)`. -/
def processData (csvData : List Row) : List Incident :=
  (csvData.map cleanRecord).reduceOption

/-! ## The filter engine

Three filter predicates exist in the source, all consuming the same
`filters` object: `filterData` in `main.jsx` (context), the `filteredData`
memo in `useChartData.js`, and the inline filter of
`NeighborhoodAnalysis.jsx`.  They differ in how a date range with a `null`
bound is treated, which is exactly what claim C2 is about. -/

/-- The `filters.dateRange` object; either bound may be `null`.
`stop` models the source's `end` field (a Lean keyword). -/
structure DateRange where
  start : Option DateParts := none
  stop : Option DateParts := none
deriving DecidableEq, Repr

/-- The `filters` object: `{ dateRange, crimeTypes, shifts }`. -/
structure FilterSpec where
  dateRange : Option DateRange := none
  crimeTypes : List String := []
  shifts : List String := []
deriving DecidableEq, Repr

/-- JS `x < s` for a date variable `x` and a (non-null) `Date` bound `s`:
`NaN` comparisons are false; `null` coerces to the epoch. -/
def dvLtP : DateVal → DateParts → Bool
  | .invalid, _ => false
  | .null, s => 0 < s.jsVal
  | .valid p, s => p.toMin < s.toMin

/-- JS `x > e` for a (non-null) `Date` bound `e`. -/
def dvGtP : DateVal → DateParts → Bool
  | .invalid, _ => false
  | .null, e => e.jsVal < 0
  | .valid p, e => e.toMin < p.toMin

/-- JS `x < y` where the right side may itself be `null` (coerced to the
epoch instant 0), as in `useChartData.js`'s `incident.reportDate < start`. -/
def dvLtN : DateVal → Option DateParts → Bool
  | .invalid, _ => false
  | .null, none => false
  | .null, some s => 0 < s.jsVal
  | .valid p, none => p.jsVal < 0
  | .valid p, some s => p.toMin < s.toMin

/-- JS `x > y` where the right side may be `null`. -/
def dvGtN : DateVal → Option DateParts → Bool
  | .invalid, _ => false
  | .null, none => false
  | .null, some e => e.jsVal < 0
  | .valid p, none => 0 < p.jsVal
  | .valid p, some e => e.toMin < p.toMin

/-- The per-incident predicate of `filterData` (main.jsx lines 206–236):
each non-null bound is guarded by its own truthiness test
(`start && (!reportDate || reportDate < start)`). -/
def filterDataPred (filters : FilterSpec) (incident : Incident) : Bool :=
  (match filters.dateRange with
   | some r =>
       (match r.start with
        | some s => !(incident.reportDate == .null || dvLtP incident.reportDate s)
        | none => true)
       &&
       (match r.stop with
        | some e => !(incident.reportDate == .null || dvGtP incident.reportDate e)
        | none => true)
   | none => true)
  && (filters.crimeTypes.isEmpty || filters.crimeTypes.contains incident.offense)
  && (filters.shifts.isEmpty || filters.shifts.contains incident.shift)

/-- `filterData`'s collection-level operation (`prev.rawData.filter(...)`). -/
def filterData (filters : FilterSpec) (data : List Incident) : List Incident :=
  data.filter (filterDataPred filters)

/-- The per-incident predicate of the `filteredData` memo
(useChartData.js lines 9–31): when a date range is present it evaluates
`incident.reportDate < start || incident.reportDate > end` with no null
guard on the bounds. -/
def chartFilterPred (filters : FilterSpec) (incident : Incident) : Bool :=
  (match filters.dateRange with
   | some r => !(dvLtN incident.reportDate r.start || dvGtN incident.reportDate r.stop)
   | none => true)
  && (filters.crimeTypes.isEmpty || filters.crimeTypes.contains incident.offense)
  && (filters.shifts.isEmpty || filters.shifts.contains incident.shift)

/-- `useChartData`'s `filteredData` collection. -/
def chartFilteredData (filters : FilterSpec) (data : List Incident) : List Incident :=
  data.filter (chartFilterPred filters)

/-- The per-incident predicate of the inline filter of
`NeighborhoodAnalysis.jsx` (lines 89–112): with a date range present, a
null report date is excluded and each bound is guarded by truthiness. -/
def naFilterPred (filters : FilterSpec) (incident : Incident) : Bool :=
  (match filters.dateRange with
   | some r =>
       !(incident.reportDate == .null
         || (match r.start with
             | some s => dvLtP incident.reportDate s
             | none => false)
         || (match r.stop with
             | some e => dvGtP incident.reportDate e
             | none => false))
   | none => true)
  && (filters.crimeTypes.isEmpty || filters.crimeTypes.contains incident.offense)
  && (filters.shifts.isEmpty || filters.shifts.contains incident.shift)

/-- Modelled from the spec's words (FilterEngine, §4.4), the refinement
target of claim C2: retained iff the report timestamp lies within the given
bounds (a null/absent bound imposes no restriction; a null range skips the
date axis), and the category and shift sets are empty or contain the
incident's value.  A valid report timestamp is compared through the same
order embedding `DateParts.toMin`. -/
def specRetains (filters : FilterSpec) (incident : Incident) : Bool :=
  (match filters.dateRange with
   | none => true
   | some r =>
       (match incident.reportDate with
        | .valid p =>
            (match r.start with
             | some s => s.toMin ≤ p.toMin
             | none => true)
            && (match r.stop with
                | some e => p.toMin ≤ e.toMin
                | none => true)
        | _ => false))
  && (filters.crimeTypes.isEmpty || filters.crimeTypes.contains incident.offense)
  && (filters.shifts.isEmpty || filters.shifts.contains incident.shift)

/-! ## Stable descending sort

`Array.prototype.sort` with a comparator `(a, b) => key(b) - key(a)` is (per
ECMA-262, stable since ES2019) the stable sort by `key` descending.  It is
modelled by a stable insertion sort: an element is inserted in front of the
first element whose key is `≤` its own, so elements with equal keys keep
their relative order. -/

def insertByDesc (key : α → Nat) (x : α) : List α → List α
  | [] => [x]
  | y :: ys => if key y ≤ key x then x :: y :: ys else y :: insertByDesc key x ys

def sortByDesc (key : α → Nat) (l : List α) : List α :=
  l.foldr (insertByDesc key) []

/-! ## Grouping by first occurrence

A JS object literal used as a counter (`acc[k] = (acc[k] || 0) + 1` folded
over the data, then `Object.entries`) yields one entry per distinct key, in
order of first occurrence (the keys here are crime-category and
neighborhood-cluster labels, never integer-like strings).  The dictionary is
modelled extensionally: the key list in first-occurrence order, each key
paired with its total count. -/

def keysAux (seen : List String) : List String → List String
  | [] => []
  | k :: ks => if seen.contains k then keysAux seen ks else k :: keysAux (k :: seen) ks

/-- Distinct elements of a list, in order of first occurrence. -/
def firstOccKeys (l : List String) : List String := keysAux [] l

/-! ## Category ranking (`processCrimeTypes`, dataProcessing.js lines 100–110) -/

/-- One entry `{ type, count }` of the category ranking. -/
structure CrimeTypeCount where
  type : String
  count : Nat
deriving DecidableEq, Repr

/-- `processCrimeTypes`: count per category (entries in first-occurrence
order), stable sort by count descending, truncate to the top 10. -/
def processCrimeTypes (data : List Incident) : List CrimeTypeCount :=
  let entries := (firstOccKeys (data.map (·.offense))).map
    (fun k => ⟨k, data.countP (fun i => i.offense == k)⟩)
  (sortByDesc (·.count) entries).take 10

/-! ## Chart data of `CrimeTypeChart.jsx` (the `chartData` memo)

Modelled for the default state: `sortBy = 'count'` (the only value the
component ever uses) and the census overlay disabled.  The display-only
`formattedOffense` string and `weight` are omitted. -/

/-- One chart entry; `percentage` models `((count / (total || 1)) *
100).toFixed(1)` as a rational rounded to one decimal place. -/
structure ChartEntry where
  offense : String
  count : Nat
  percentage : ℚ
deriving DecidableEq, Repr

/-- `toFixed(1)` as a rational: round to one decimal place. -/
def toFixed1 (q : ℚ) : ℚ := (round (q * 10) : ℤ) / 10

/-- The `chartData` memo of `CrimeTypeChart.jsx` (lines 126–189), with
`total = rawData.length` supplied by the caller. -/
def crimeChartData (crimeTypes : List CrimeTypeCount) (total : Nat) : List ChartEntry :=
  if crimeTypes.isEmpty then []
  else
    let data := crimeTypes.map (fun t =>
      { offense := t.type
        count := t.count
        percentage := toFixed1 ((t.count : ℚ) / (if total = 0 then 1 else (total : ℚ)) * 100) })
    let sorted := sortByDesc (·.count) data
    if sorted.length > 10 then sorted.take 10 else sorted

/-! ## Dense daily trend for 2024 (useChartData.js lines 68–92) -/

/-- One `{ date, count }` entry; the date is the 2024 calendar day
`(month, day)`. -/
structure TrendPoint where
  month : Nat
  day : Nat
  count : Nat
deriving DecidableEq, Repr

/-- `eachDayOfInterval({start: startOfYear(2024), end: endOfYear(2024)})`:
every `(month, day)` of 2024 in calendar order. -/
def daysIn2024 : List (Nat × Nat) :=
  (List.range 12).flatMap
    (fun m0 => (List.range (daysInMonth 2024 (m0 + 1))).map (fun d0 => (m0 + 1, d0 + 1)))

/-- Incidents counted into the `yyyy-MM-dd` bucket of day `(m, d)` of 2024
(the JS `dailyCounts` dictionary, read back with `|| 0`). -/
def dailyCount (data : List Incident) (m d : Nat) : Nat :=
  data.countP (fun i =>
    match i.reportDate with
    | .valid p => p.year == 2024 && p.month == m && p.day == d
    | _ => false)

/-- The `temporalTrends` memo of `useChartData.js`: one zero-initialised
entry per 2024 calendar day.  `format(reportDate, 'yyyy-MM-dd')` throws a
`RangeError` on an `Invalid Date` (there is no `try/catch` here), modelled
by `none`; a `null` report date is skipped by the `if (incident.reportDate)`
truthiness guard. -/
def chartTemporalTrends (data : List Incident) : Option (List TrendPoint) :=
  if data.all (fun i => i.reportDate != .invalid) then
    some (daysIn2024.map (fun md => ⟨md.1, md.2, dailyCount data md.1 md.2⟩))
  else none

/-! ## Area rollup (`NeighborhoodAnalysis.jsx`) -/

/-- `Object.keys(CRIME_COLORS).filter(key => key !== 'default')`
(NeighborhoodAnalysis.jsx lines 10–19), in insertion order. -/
def crimeColorKeys : List String :=
  ["HOMICIDE", "ASSAULT W/DANGEROUS WEAPON", "ROBBERY", "BURGLARY",
   "MOTOR VEHICLE THEFT", "THEFT F/AUTO", "THEFT/OTHER"]

/-- `activeCrimeTypes` (NeighborhoodAnalysis.jsx lines 83–86): the filter's
category set when non-empty, else the fixed `CRIME_COLORS` key list. -/
def activeCrimeTypes (filters : FilterSpec) : List String :=
  if filters.crimeTypes.length > 0 then filters.crimeTypes else crimeColorKeys

/-- Modelled from the claim's words (C6 refinement target): the active set
is the filter's category set when non-empty, otherwise the full known
category set — every category occurring in the data. -/
def specActiveSet (data : List Incident) (filters : FilterSpec) : List String :=
  if filters.crimeTypes.length > 0 then filters.crimeTypes
  else firstOccKeys (data.map (·.offense))

/-- JS whitespace trim (`String.prototype.trim`), on the whitespace
characters that occur in the data. -/
def isWS (c : Char) : Bool := c == ' ' || c == '\t' || c == '\n' || c == '\r'

def trimChars (cs : List Char) : List Char :=
  ((cs.dropWhile isWS).reverse.dropWhile isWS).reverse

def strTrim (s : String) : String := ⟨trimChars s.data⟩

/-- `needle` occurs as a contiguous substring of `haystack`. -/
def occursIn (needle haystack : List Char) : Bool :=
  match haystack with
  | [] => needle.isEmpty
  | _ :: t => needle.isPrefixOf haystack || occursIn needle t

/-- ASCII lower-casing (`String.prototype.toLowerCase` on the label
alphabet occurring in the data). -/
def lowerChar (c : Char) : Char :=
  if 'A' ≤ c && c ≤ 'Z' then Char.ofNat (c.toNat + 32) else c

def toLowerChars (cs : List Char) : List Char := cs.map lowerChar

/-- `label.toLowerCase().includes('cluster')`. -/
def containsCluster (s : String) : Bool := occursIn "cluster".data (toLowerChars s.data)

/-- One area rollup entry: cluster label, total, and the per-active-category
sub-counts. -/
structure NbEntry where
  neighborhood : String
  total : Nat
  subCounts : List (String × Nat)
deriving DecidableEq, Repr

/-- The group key `incident.neighborhood || 'Unknown'`. -/
def nbKey (i : Incident) : String := orDefault i.neighborhood "Unknown"

/-- The `neighborhoodCrimes` reduction (lines 115–136), read back with
`Object.values`: one group per distinct key in first-occurrence order;
`total` and the sub-count of a category `c` are incremented only when
`incident.offense` is truthy and a member of the active set. -/
def neighborhoodGroups (data : List Incident) (active : List String) : List NbEntry :=
  (firstOccKeys (data.map nbKey)).map (fun k =>
    { neighborhood := k
      total := data.countP (fun i =>
          nbKey i == k && i.offense != "" && active.contains i.offense)
      subCounts := active.map (fun c =>
          (c, data.countP (fun i => nbKey i == k && i.offense != "" && i.offense == c))) })

/-- `neighborhoodData` (lines 115–147): group the filtered incidents, keep
only valid cluster labels, stable-sort by total descending, keep the top 5. -/
def neighborhoodData (data : List Incident) (filters : FilterSpec) : List NbEntry :=
  let active := activeCrimeTypes filters
  let filteredData := data.filter (naFilterPred filters)
  (sortByDesc (·.total)
    ((neighborhoodGroups filteredData active).filter (fun item =>
      item.neighborhood != "Unknown"
        && strTrim item.neighborhood != ""
        && containsCluster item.neighborhood))).take 5

/-- `totalIncidents = filteredData.length || 1` (line 165). -/
def nbTotalIncidents (data : List Incident) (filters : FilterSpec) : ℚ :=
  if (data.filter (naFilterPred filters)).length = 0 then 1
  else ((data.filter (naFilterPred filters)).length : ℚ)

/-- `topAreasPercentage` (lines 166–167), before the display-only
`toFixed(1)`. -/
def topAreasPercentage (data : List Incident) (filters : FilterSpec) : ℚ :=
  (((((neighborhoodData data filters).map (·.total)).sum : Nat) : ℚ))
    / nbTotalIncidents data filters * 100

/-- The fixed property-crime category list (line 170). -/
def propertyCrimes : List String :=
  ["THEFT/OTHER", "THEFT F/AUTO", "BURGLARY", "MOTOR VEHICLE THEFT"]

/-- `propertyCrimePercentage` (lines 169–174), before `toFixed(1)`. -/
def propertyCrimePercentage (data : List Incident) (filters : FilterSpec) : ℚ :=
  (((data.filter (naFilterPred filters)).countP
      (fun i => propertyCrimes.contains i.offense) : ℚ))
    / nbTotalIncidents data filters * 100

/-! ## Census reference data (`censusDataProcessing.js`)

The claims about this module (C8, C9) concern presence/absence handling and
the derived-metric arithmetic, so a reference table is modelled at the
parsed-row level: a `geoid` and the numeric columns (`parseCSV` stores
numeric cells as numbers keyed by header name; `row.FIELD || 0` is a lookup
defaulting to 0). -/

/-- One parsed census row. -/
structure CRow where
  geoid : String := ""
  vals : List (String × ℚ) := []
deriving DecidableEq, Repr

/-- `row.FIELD || 0` on a present row. -/
def CRow.get (r : CRow) (f : String) : ℚ := (r.vals.lookup f).getD 0

/-- `extractDataForDC` (censusDataProcessing.js lines 189–198): the row
matching the region key, or `{}` (modelled `none`) with only a console
warning when absent — not an error. -/
def extractDataForDC (dataset : List CRow) (geoid : String) : Option CRow :=
  dataset.find? (fun r => r.geoid == geoid)

/-- Field access through a possibly-empty extraction: `{}.FIELD || 0` is 0. -/
def getF (o : Option CRow) (f : String) : ℚ :=
  match o with
  | some r => r.get f
  | none => 0

/-- The fixed target-region key (Washington DC). -/
def dcGeoid : String := "16000US1150000"

/-- The eight loaded reference tables, after every fetch succeeded. -/
structure LoadedTables where
  income : List CRow := []
  education : List CRow := []
  race : List CRow := []
  poverty : List CRow := []
  value : List CRow := []
  mobility : List CRow := []
  transportation : List CRow := []
  tenure : List CRow := []
deriving DecidableEq, Repr

/-- The fetch outcome per reference file; `none` models a failed fetch
(`!response.ok`), which `loadCensusData` turns into a thrown error. -/
structure RawCensusFiles where
  income : Option (List CRow) := none
  education : Option (List CRow) := none
  race : Option (List CRow) := none
  poverty : Option (List CRow) := none
  value : Option (List CRow) := none
  mobility : Option (List CRow) := none
  transportation : Option (List CRow) := none
  tenure : Option (List CRow) := none
deriving DecidableEq, Repr

/-- `racialComposition` of `calculateDerivedMetrics`. -/
structure RacialComposition where
  white : ℚ
  black : ℚ
  asian : ℚ
  hispanic : ℚ
  other : ℚ
deriving DecidableEq, Repr

/-- The derived demographic metrics. -/
structure DerivedMetrics where
  higherEducationPercentage : ℚ
  povertyPercentage : ℚ
  highValueHousingPercentage : ℚ
  diversityIndex : ℚ
  racialComposition : RacialComposition
deriving DecidableEq, Repr

/-- The designated bachelor's-or-higher fields. -/
def higherEducationFields : List String :=
  ["B15002015", "B15002016", "B15002017", "B15002018",
   "B15002032", "B15002033", "B15002034", "B15002035"]

/-- The high-value housing bucket fields (750K and above). -/
def highValueFields : List String := ["B25075025", "B25075026", "B25075027"]

/-- `calculateDerivedMetrics` (censusDataProcessing.js lines 201–272). -/
def calculateDerivedMetrics (rawData : LoadedTables) (geoid : String) : DerivedMetrics :=
  let education := extractDataForDC rawData.education geoid
  let poverty := extractDataForDC rawData.poverty geoid
  let housing := extractDataForDC rawData.value geoid
  let race := extractDataForDC rawData.race geoid
  let totalPopulation := getF education "B15002001"
  let higherEducationTotal := (higherEducationFields.map (getF education)).sum
  let higherEducationPercentage :=
    if 0 < totalPopulation then higherEducationTotal / totalPopulation * 100 else 0
  let totalPovertyPopulation := getF poverty "B17001001"
  let belowPovertyCount := getF poverty "B17001002"
  let povertyPercentage :=
    if 0 < totalPovertyPopulation then belowPovertyCount / totalPovertyPopulation * 100 else 0
  let totalHousingUnits := getF housing "B25075001"
  let highValueTotal := (highValueFields.map (getF housing)).sum
  let highValueHousingPercentage :=
    if 0 < totalHousingUnits then highValueTotal / totalHousingUnits * 100 else 0
  let totalRacePopulation := getF race "B03002001"
  let whitePercent :=
    if 0 < totalRacePopulation then getF race "B03002003" / totalRacePopulation else 0
  let blackPercent :=
    if 0 < totalRacePopulation then getF race "B03002004" / totalRacePopulation else 0
  let asianPercent :=
    if 0 < totalRacePopulation then getF race "B03002006" / totalRacePopulation else 0
  let hispanicPercent :=
    if 0 < totalRacePopulation then getF race "B03002012" / totalRacePopulation else 0
  let diversityIndex :=
    1 - (whitePercent ^ 2 + blackPercent ^ 2 + asianPercent ^ 2 + hispanicPercent ^ 2)
  { higherEducationPercentage := higherEducationPercentage
    povertyPercentage := povertyPercentage
    highValueHousingPercentage := highValueHousingPercentage
    diversityIndex := diversityIndex
    racialComposition :=
      { white := whitePercent * 100
        black := blackPercent * 100
        asian := asianPercent * 100
        hispanic := hispanicPercent * 100
        other := 100 - ((whitePercent + blackPercent + asianPercent + hispanicPercent) * 100) } }

/-- The published census result of `processCensusData`. -/
structure CensusResult where
  income : Option CRow
  education : Option CRow
  race : Option CRow
  poverty : Option CRow
  housing : Option CRow
  mobility : Option CRow
  transportation : Option CRow
  tenure : Option CRow
  derivedMetrics : DerivedMetrics
deriving DecidableEq, Repr

/-- `processCensusData` (lines 166–186). -/
def processCensusData (rawData : LoadedTables) : CensusResult :=
  { income := extractDataForDC rawData.income dcGeoid
    education := extractDataForDC rawData.education dcGeoid
    race := extractDataForDC rawData.race dcGeoid
    poverty := extractDataForDC rawData.poverty dcGeoid
    housing := extractDataForDC rawData.value dcGeoid
    mobility := extractDataForDC rawData.mobility dcGeoid
    transportation := extractDataForDC rawData.transportation dcGeoid
    tenure := extractDataForDC rawData.tenure dcGeoid
    derivedMetrics := calculateDerivedMetrics rawData dcGeoid }

/-- `loadCensusData` (lines 70–113): `Promise.all` over the eight fetches —
any failed fetch rejects the whole load (the `catch` rethrows); otherwise
the parsed tables are processed. -/
def loadCensusData (files : RawCensusFiles) : Except String CensusResult :=
  match files.income, files.education, files.race, files.poverty, files.value,
        files.mobility, files.transportation, files.tenure with
  | some i, some e, some r, some p, some v, some m, some t, some te =>
      .ok (processCensusData ⟨i, e, r, p, v, m, t, te⟩)
  | _, _, _, _, _, _, _, _ => .error "Failed to load census data"

/-! ## The CSV row decoder (`parseRow`, main.jsx lines 85–126)

The character scan: a quote character toggles the quoted state and is
dropped; a comma outside quotes terminates the current field (consecutive
commas each yield an empty field); the final character (a space is appended
to the row first) flushes the last field.  Each raw field is then trimmed,
stripped of one leading/trailing quote (`replace(/^"|"$/g, '')`) and trimmed
again. -/

/-- The index loop of `parseRow`: `cur` is `currentValue`, `inQ` the
`inQuotes` flag; the `rest.isEmpty` test models `i === row.length - 1`.
The source's inner `while` that eats runs of consecutive commas (pushing an
empty field per comma) is equivalent to routing each of those commas
through the separator branch below, since the flushed `currentValue` is
then empty. -/
def scanRow : List Char → Bool → List Char → List (List Char)
  | [], _, _ => []
  | c :: rest, inQ, cur =>
      if c == '"' then scanRow rest (!inQ) cur
      else if c == ',' && !inQ then trimChars cur :: scanRow rest inQ []
      else if rest.isEmpty then [trimChars (cur ++ [c])]
      else scanRow rest inQ (cur ++ [c])

/-- Remove one leading double quote, if present. -/
def stripLeadQuote (cs : List Char) : List Char :=
  match cs with
  | c :: rest => if c = '"' then rest else c :: rest
  | [] => []

/-- `value.replace(/^"|"$/g, '')`: remove one leading and one trailing
double quote (the trailing one by stripping a leading quote of the
reversal). -/
def stripWrapQuotes (cs : List Char) : List Char :=
  (stripLeadQuote ((stripLeadQuote cs).reverse)).reverse

/-- `parseRow`: append the sentinel space, scan, then clean each value. -/
def parseRow (row : String) : List String :=
  (scanRow (row.data ++ [' ']) false []).map
    (fun v => ⟨trimChars (stripWrapQuotes (trimChars v))⟩)

/-! ## Claim-side auxiliary order -/

/-- Strict lexicographic character-list order. -/
def lexLt : List Char → List Char → Bool
  | [], [] => false
  | [], _ :: _ => true
  | _ :: _, [] => false
  | c :: cs, d :: ds => if c < d then true else if d < c then false else lexLt cs ds

/-- Ascending alphabetical order on category names — the tie-break order
claim C4 asserts for the category ranking. -/
def alphaLt (a b : String) : Bool := lexLt a.data b.data

/-! ## Helper lemmas: the stable descending sort -/

theorem insertByDesc_perm (key : α → Nat) (x : α) (l : List α) :
    (insertByDesc key x l).Perm (x :: l) := by
  induction l with
  | nil => simp [insertByDesc]
  | cons y ys ih =>
      by_cases h : key y ≤ key x
      · simp [insertByDesc, h]
      · simpa [insertByDesc, h] using (ih.cons y).trans (List.Perm.swap x y ys)

theorem sortByDesc_perm (key : α → Nat) (l : List α) :
    (sortByDesc key l).Perm l := by
  induction l with
  | nil => simp [sortByDesc]
  | cons x xs ih =>
      exact (insertByDesc_perm key x (sortByDesc key xs)).trans (ih.cons x)

theorem mem_insertByDesc {key : α → Nat} {x a : α} {l : List α} :
    a ∈ insertByDesc key x l ↔ a = x ∨ a ∈ l := by
  simpa using (insertByDesc_perm key x l).mem_iff

theorem insertByDesc_sorted {key : α → Nat} {x : α} {l : List α}
    (h : l.Pairwise (fun a b => key b ≤ key a)) :
    (insertByDesc key x l).Pairwise (fun a b => key b ≤ key a) := by
  induction l with
  | nil => simp [insertByDesc]
  | cons y ys ih =>
      rcases List.pairwise_cons.mp h with ⟨hy, hys⟩
      by_cases hk : key y ≤ key x
      · rw [insertByDesc, if_pos hk]
        refine List.pairwise_cons.mpr ⟨?_, h⟩
        intro z hz
        rcases List.mem_cons.mp hz with rfl | hz
        · exact hk
        · exact le_trans (hy z hz) hk
      · rw [insertByDesc, if_neg hk]
        refine List.pairwise_cons.mpr ⟨?_, ih hys⟩
        intro z hz
        rcases mem_insertByDesc.mp hz with rfl | hz
        · exact le_of_not_le hk
        · exact hy z hz

theorem sortByDesc_sorted (key : α → Nat) (l : List α) :
    (sortByDesc key l).Pairwise (fun a b => key b ≤ key a) := by
  induction l with
  | nil => simp [sortByDesc]
  | cons x xs ih => exact insertByDesc_sorted ih

theorem insertByDesc_pairwise_stable {R : α → α → Prop} {key : α → Nat} {x : α} {l : List α}
    (hl : l.Pairwise (fun a b => key b < key a ∨ R a b)) (hx : ∀ z ∈ l, R x z) :
    (insertByDesc key x l).Pairwise (fun a b => key b < key a ∨ R a b) := by
  induction l with
  | nil => simp [insertByDesc]
  | cons y ys ih =>
      rcases List.pairwise_cons.mp hl with ⟨hy, hys⟩
      by_cases hk : key y ≤ key x
      · rw [insertByDesc, if_pos hk]
        refine List.pairwise_cons.mpr ⟨?_, hl⟩
        intro z hz
        exact Or.inr (hx z hz)
      · have hx' : ∀ z ∈ ys, R x z := fun z hz => hx z (List.mem_cons_of_mem y hz)
        rw [insertByDesc, if_neg hk]
        refine List.pairwise_cons.mpr ⟨?_, ih hys hx'⟩
        intro z hz
        rcases mem_insertByDesc.mp hz with rfl | hz
        · exact Or.inl (lt_of_not_le hk)
        · exact hy z hz

theorem sortByDesc_pairwise_stable {R : α → α → Prop} (key : α → Nat) {l : List α}
    (hl : l.Pairwise R) :
    (sortByDesc key l).Pairwise (fun a b => key b < key a ∨ R a b) := by
  induction l with
  | nil => simp [sortByDesc]
  | cons x xs ih =>
      rcases List.pairwise_cons.mp hl with ⟨hx, hxs⟩
      refine insertByDesc_pairwise_stable (ih hxs) ?_
      intro z hz
      exact hx z ((sortByDesc_perm key xs).mem_iff.mp hz)

/-! ## Helper lemmas: first-occurrence grouping -/

theorem mem_keysAux {x : String} :
    ∀ (l seen : List String), x ∈ keysAux seen l ↔ x ∈ l ∧ x ∉ seen := by
  intro l
  induction l with
  | nil => intro seen; simp [keysAux]
  | cons k ks ih =>
      intro seen
      by_cases hk : k ∈ seen
      · have hc : seen.contains k = true := by simpa using hk
        rw [keysAux, if_pos hc, ih seen]
        constructor
        · rintro ⟨h1, h2⟩
          exact ⟨List.mem_cons_of_mem k h1, h2⟩
        · rintro ⟨h1, h2⟩
          rcases List.mem_cons.mp h1 with rfl | h1
          · exact absurd hk h2
          · exact ⟨h1, h2⟩
      · have hc : ¬ seen.contains k = true := by simpa using hk
        rw [keysAux, if_neg hc]
        constructor
        · intro h
          rcases List.mem_cons.mp h with rfl | h
          · exact ⟨List.mem_cons_self x ks, hk⟩
          · rcases (ih (k :: seen)).mp h with ⟨h1, h2⟩
            exact ⟨List.mem_cons_of_mem k h1, fun hs => h2 (List.mem_cons_of_mem k hs)⟩
        · rintro ⟨h1, h2⟩
          by_cases hxk : x = k
          · subst hxk; exact List.mem_cons_self x _
          · rcases List.mem_cons.mp h1 with rfl | h1
            · exact absurd rfl hxk
            · refine List.mem_cons_of_mem k ((ih (k :: seen)).mpr ⟨h1, ?_⟩)
              intro hs
              rcases List.mem_cons.mp hs with h | h
              · exact hxk h
              · exact h2 h

theorem nodup_keysAux : ∀ (l seen : List String), (keysAux seen l).Nodup := by
  intro l
  induction l with
  | nil => intro seen; simp [keysAux]
  | cons k ks ih =>
      intro seen
      by_cases hk : seen.contains k = true
      · rw [keysAux, if_pos hk]; exact ih seen
      · rw [keysAux, if_neg hk]
        refine List.nodup_cons.mpr ⟨?_, ih (k :: seen)⟩
        intro hmem
        exact absurd (List.mem_cons_self k seen) (mem_keysAux ks (k :: seen) |>.mp hmem).2

theorem mem_firstOccKeys {x : String} {l : List String} :
    x ∈ firstOccKeys l ↔ x ∈ l := by
  simpa [firstOccKeys] using mem_keysAux l []

theorem nodup_firstOccKeys (l : List String) : (firstOccKeys l).Nodup :=
  nodup_keysAux l []

theorem keysAux_pairwise_idx :
    ∀ (l seen : List String),
      (keysAux seen l).Pairwise (fun a b => l.indexOf a < l.indexOf b) := by
  intro l
  induction l with
  | nil => intro seen; simp [keysAux]
  | cons k ks ih =>
      intro seen
      by_cases hk : seen.contains k = true
      · have hkmem : k ∈ seen := by simpa using hk
        simp only [keysAux, hk, if_pos]
        refine (ih seen).imp_of_mem ?_
        intro a b ha hb hab
        have hak : a ≠ k := fun h => ((mem_keysAux ks seen).mp ha).2 (h ▸ hkmem)
        have hbk : b ≠ k := fun h => ((mem_keysAux ks seen).mp hb).2 (h ▸ hkmem)
        rw [List.indexOf_cons_ne ks hak.symm, List.indexOf_cons_ne ks hbk.symm]
        omega
      · simp only [keysAux, hk, Bool.false_eq_true, if_neg, not_false_iff]
        refine List.pairwise_cons.mpr ⟨?_, ?_⟩
        · intro b hb
          have hbk : b ≠ k :=
            fun h => ((mem_keysAux ks (k :: seen)).mp hb).2 (h ▸ List.mem_cons_self k seen)
          rw [List.indexOf_cons_self, List.indexOf_cons_ne ks hbk.symm]
          omega
        · refine (ih (k :: seen)).imp_of_mem ?_
          intro a b ha hb hab
          have hak : a ≠ k :=
            fun h => ((mem_keysAux ks (k :: seen)).mp ha).2 (h ▸ List.mem_cons_self k seen)
          have hbk : b ≠ k :=
            fun h => ((mem_keysAux ks (k :: seen)).mp hb).2 (h ▸ List.mem_cons_self k seen)
          rw [List.indexOf_cons_ne ks hak.symm, List.indexOf_cons_ne ks hbk.symm]
          omega

/-! ## Helper lemmas: exchanging a sum of counts for a count -/

theorem sum_map_ite_one (ks : List β) (p : β → Bool) :
    (ks.map (fun k => if p k then 1 else 0)).sum = ks.countP p := by
  induction ks with
  | nil => simp
  | cons k ks ih => simp [List.countP_cons, ih]; omega

theorem sum_map_countP {ks : List β} {data : List α} {p : β → α → Bool} {q : α → Bool}
    (h : ∀ a ∈ data, ks.countP (fun k => p k a) = if q a then 1 else 0) :
    (ks.map (fun k => data.countP (p k))).sum = data.countP q := by
  induction data with
  | nil => simp
  | cons a d ih =>
      have hd : ∀ b ∈ d, ks.countP (fun k => p k b) = if q b then 1 else 0 :=
        fun b hb => h b (List.mem_cons_of_mem a hb)
      have ha := h a (List.mem_cons_self a d)
      calc (ks.map (fun k => List.countP (p k) (a :: d))).sum
          = (ks.map (fun k => List.countP (p k) d + if p k a then 1 else 0)).sum := by
            simp [List.countP_cons]
        _ = (ks.map (fun k => List.countP (p k) d)).sum
              + (ks.map (fun k => if p k a then 1 else 0)).sum := by
            rw [← List.sum_map_add]
        _ = List.countP q d + if q a then 1 else 0 := by
            rw [ih hd, sum_map_ite_one, ha]
        _ = List.countP q (a :: d) := by simp [List.countP_cons]

/-! ## Claim C1 -/

/-- Claim C1 (code-bug evidence): the normaliser is claimed to reject every
row whose report-timestamp field does not parse.  In fact `cleanRecord` only
rejects a *null* report date (empty field): date-fns `parse` returns a truthy
`Invalid Date` object on a non-empty unparseable field, the `!reportDate`
test passes it, and the incident enters the canonical store with an invalid
timestamp.  Here the row with `REPORT_DAT = "not a date"` is kept (with an
invalid timestamp) while only the empty-field row is dropped. -/
theorem invalid_report_date_enters_store :
    (processData [{ REPORT_DAT := "not a date" }, { REPORT_DAT := "" }]).map (·.reportDate)
      = [DateVal.invalid] := by decide

/-! ## Claim C2 -/

/-- Claim C2 (amended): for an incident with a valid report timestamp, the
`filterData` predicate of `main.jsx` and the inline predicate of
`NeighborhoodAnalysis.jsx` retain the incident exactly as the spec's
FilterEngine predicate prescribes (null/absent bounds unrestricted, AND
across axes, empty set = no restriction); `useChartData`'s `filteredData`
predicate agrees whenever the date range is absent or has both bounds
present — but not in general when a present range carries a null bound. -/
theorem filter_retention_semantics (filters : FilterSpec) (incident : Incident)
    (p : DateParts) (hv : incident.reportDate = .valid p) :
    (filterDataPred filters incident ↔ specRetains filters incident)
    ∧ (naFilterPred filters incident ↔ specRetains filters incident)
    ∧ ((filters.dateRange = none
          ∨ ∃ r, filters.dateRange = some r ∧ r.start ≠ none ∧ r.stop ≠ none)
        → (chartFilterPred filters incident ↔ specRetains filters incident)) := by
  obtain ⟨dr, cts, shs⟩ := filters
  refine ⟨?_, ?_, ?_⟩
  · cases dr with
    | none => simp [filterDataPred, specRetains]
    | some r =>
        cases hs : r.start <;> cases he : r.stop <;>
          simp [filterDataPred, specRetains, dvLtP, dvGtP, hv, hs, he, Nat.not_lt, and_assoc]
  · cases dr with
    | none => simp [naFilterPred, specRetains]
    | some r =>
        cases hs : r.start <;> cases he : r.stop <;>
          simp [naFilterPred, specRetains, dvLtP, dvGtP, hv, hs, he, Nat.not_lt, and_assoc]
  · rintro (hdr | ⟨r, hdr, hs0, he0⟩)
    · subst hdr; simp [chartFilterPred, specRetains]
    · rcases Option.ne_none_iff_exists'.mp hs0 with ⟨s, hs⟩
      rcases Option.ne_none_iff_exists'.mp he0 with ⟨e, he⟩
      subst hdr
      simp [chartFilterPred, specRetains, dvLtN, dvGtN, hv, hs, he, Nat.not_lt, and_assoc]

/-- Witness for `filter_retention_semantics` at a concrete incident and
filter (date range 2024-03-01 … 2024-03-31, category and shift sets empty). -/
theorem filter_retention_semantics_witness :
    (filterDataPred
        { dateRange := some { start := some ⟨2024, 3, 1, 0, 0, 0⟩, stop := some ⟨2024, 3, 31, 23, 59, 59⟩ } }
        { reportDate := .valid ⟨2024, 3, 5, 10, 30, 0⟩ }
      ↔ specRetains
        { dateRange := some { start := some ⟨2024, 3, 1, 0, 0, 0⟩, stop := some ⟨2024, 3, 31, 23, 59, 59⟩ } }
        { reportDate := .valid ⟨2024, 3, 5, 10, 30, 0⟩ })
    ∧ (naFilterPred
        { dateRange := some { start := some ⟨2024, 3, 1, 0, 0, 0⟩, stop := some ⟨2024, 3, 31, 23, 59, 59⟩ } }
        { reportDate := .valid ⟨2024, 3, 5, 10, 30, 0⟩ }
      ↔ specRetains
        { dateRange := some { start := some ⟨2024, 3, 1, 0, 0, 0⟩, stop := some ⟨2024, 3, 31, 23, 59, 59⟩ } }
        { reportDate := .valid ⟨2024, 3, 5, 10, 30, 0⟩ })
    ∧ ((({ dateRange := some { start := some ⟨2024, 3, 1, 0, 0, 0⟩, stop := some ⟨2024, 3, 31, 23, 59, 59⟩ } } : FilterSpec).dateRange = none
          ∨ ∃ r, ({ dateRange := some { start := some ⟨2024, 3, 1, 0, 0, 0⟩, stop := some ⟨2024, 3, 31, 23, 59, 59⟩ } } : FilterSpec).dateRange = some r
              ∧ r.start ≠ none ∧ r.stop ≠ none)
        → (chartFilterPred
            { dateRange := some { start := some ⟨2024, 3, 1, 0, 0, 0⟩, stop := some ⟨2024, 3, 31, 23, 59, 59⟩ } }
            { reportDate := .valid ⟨2024, 3, 5, 10, 30, 0⟩ }
          ↔ specRetains
            { dateRange := some { start := some ⟨2024, 3, 1, 0, 0, 0⟩, stop := some ⟨2024, 3, 31, 23, 59, 59⟩ } }
            { reportDate := .valid ⟨2024, 3, 5, 10, 30, 0⟩ })) := by
  exact filter_retention_semantics
    { dateRange := some { start := some ⟨2024, 3, 1, 0, 0, 0⟩, stop := some ⟨2024, 3, 31, 23, 59, 59⟩ } }
    { reportDate := .valid ⟨2024, 3, 5, 10, 30, 0⟩ }
    ⟨2024, 3, 5, 10, 30, 0⟩ rfl

/-- Counterexample to claim C2 as stated: a well-formed filter whose date
range has a start bound but a null end bound.  The claim (and the spec) say
a null bound imposes no restriction, so the March-5 incident must be
retained (`specRetains` = true); `useChartData`'s predicate instead
evaluates `reportDate > null`, coercing `null` to the 1970 epoch, and drops
it. -/
theorem chart_filter_null_bound_cex :
    chartFilterPred
        { dateRange := some { start := some ⟨2024, 3, 1, 0, 0, 0⟩, stop := none } }
        { reportDate := .valid ⟨2024, 3, 5, 10, 30, 0⟩ } = false
    ∧ specRetains
        { dateRange := some { start := some ⟨2024, 3, 1, 0, 0, 0⟩, stop := none } }
        { reportDate := .valid ⟨2024, 3, 5, 10, 30, 0⟩ } = true := by decide

/-! ## Claim C4 -/

/-- Claim C4 (amended): the category ranking has length at most 10, its
counts sum to at most the number of filtered incidents, and it is sorted
descending by count; ties between equal counts keep the order of first
occurrence of the category in the data (JS stable sort) — they are *not*
re-ordered alphabetically. -/
theorem crime_type_ranking_spec (data : List Incident) :
    (processCrimeTypes data).length ≤ 10
    ∧ ((processCrimeTypes data).map (·.count)).sum ≤ data.length
    ∧ (processCrimeTypes data).Pairwise (fun a b => b.count ≤ a.count)
    ∧ (processCrimeTypes data).Pairwise (fun a b =>
        b.count < a.count
          ∨ (data.map (·.offense)).indexOf a.type < (data.map (·.offense)).indexOf b.type) := by
  have hkeys_nodup : (firstOccKeys (data.map (·.offense))).Nodup := nodup_firstOccKeys _
  have hproc : processCrimeTypes data
      = (sortByDesc (·.count) ((firstOccKeys (data.map (·.offense))).map
          (fun k => (⟨k, data.countP (fun i => i.offense == k)⟩ : CrimeTypeCount)))).take 10 := rfl
  have hlen : (processCrimeTypes data).length ≤ 10 := by
    rw [hproc]; simp [List.length_take]
  have hcount : ∀ a ∈ data,
      (firstOccKeys (data.map (·.offense))).countP (fun k => a.offense == k)
        = if (firstOccKeys (data.map (·.offense))).contains a.offense then 1 else 0 := by
    intro a ha
    by_cases hmem : a.offense ∈ firstOccKeys (data.map (·.offense))
    · have hc : (firstOccKeys (data.map (·.offense))).contains a.offense = true := by
        simpa using hmem
      rw [if_pos hc]
      calc (firstOccKeys (data.map (·.offense))).countP (fun k => a.offense == k)
          = (firstOccKeys (data.map (·.offense))).countP (fun k => k == a.offense) := by
            refine List.countP_congr ?_
            intro k hk
            simp only [beq_iff_eq]
            exact eq_comm
        _ = (firstOccKeys (data.map (·.offense))).count a.offense :=
            (List.count_eq_countP _ _).symm
        _ = 1 := List.count_eq_one_of_mem hkeys_nodup hmem
    · have hc : ¬ (firstOccKeys (data.map (·.offense))).contains a.offense = true := by
        simpa using hmem
      rw [if_neg hc]
      refine List.countP_eq_zero.mpr ?_
      intro k hk hkeq
      exact hmem ((beq_iff_eq.mp hkeq) ▸ hk)
  have hsum_entries :
      (((firstOccKeys (data.map (·.offense))).map
          (fun k => (⟨k, data.countP (fun i => i.offense == k)⟩ : CrimeTypeCount))).map (·.count)).sum
        = data.countP (fun i => (firstOccKeys (data.map (·.offense))).contains i.offense) := by
    rw [List.map_map]
    exact sum_map_countP hcount
  have hsub : (((sortByDesc (·.count) ((firstOccKeys (data.map (·.offense))).map
          (fun k => (⟨k, data.countP (fun i => i.offense == k)⟩ : CrimeTypeCount)))).take 10).map
            (·.count)).Sublist
        ((sortByDesc (·.count) ((firstOccKeys (data.map (·.offense))).map
          (fun k => (⟨k, data.countP (fun i => i.offense == k)⟩ : CrimeTypeCount)))).map (·.count)) :=
    List.Sublist.map _ (List.take_sublist 10 _)
  have hperm := sortByDesc_perm (fun e : CrimeTypeCount => e.count)
      ((firstOccKeys (data.map (·.offense))).map
        (fun k => (⟨k, data.countP (fun i => i.offense == k)⟩ : CrimeTypeCount)))
  have hsum : ((processCrimeTypes data).map (·.count)).sum ≤ data.length := by
    rw [hproc]
    refine le_trans (List.Sublist.sum_le_sum hsub (fun a _ => Nat.zero_le a)) ?_
    rw [(hperm.map (fun e : CrimeTypeCount => e.count)).sum_eq, hsum_entries]
    exact List.countP_le_length _
  have hsorted : (processCrimeTypes data).Pairwise (fun a b => b.count ≤ a.count) := by
    rw [hproc]
    exact List.Pairwise.sublist (List.take_sublist 10 _) (sortByDesc_sorted _ _)
  have hstable : (processCrimeTypes data).Pairwise (fun a b =>
      b.count < a.count
        ∨ (data.map (·.offense)).indexOf a.type < (data.map (·.offense)).indexOf b.type) := by
    rw [hproc]
    refine List.Pairwise.sublist (List.take_sublist 10 _) ?_
    refine sortByDesc_pairwise_stable (fun e : CrimeTypeCount => e.count) ?_
    refine List.pairwise_map.mpr ?_
    exact keysAux_pairwise_idx (data.map (·.offense)) []
  exact ⟨hlen, hsum, hsorted, hstable⟩

/-- Counterexample to claim C4 as stated: two categories with equal counts.
The claimed alphabetical tie-break would list `ARSON` before `ROBBERY`
(`alphaLt "ARSON" "ROBBERY"`), but `processCrimeTypes` keeps the stable
input order `ROBBERY, ARSON`. -/
theorem crime_type_tiebreak_cex :
    processCrimeTypes [{ offense := "ROBBERY" }, { offense := "ARSON" }]
      = [⟨"ROBBERY", 1⟩, ⟨"ARSON", 1⟩]
    ∧ alphaLt "ARSON" "ROBBERY" = true := by decide

/-! ## Claim C3 -/

set_option maxRecDepth 10000 in
theorem daysIn2024_length : daysIn2024.length = 366 := by decide

theorem daysIn2024_nodup : daysIn2024.Nodup := by
  rw [daysIn2024]
  refine List.nodup_flatMap.mpr ⟨?_, ?_⟩
  · intro m0 hm0
    refine List.Nodup.map ?_ (List.nodup_range _)
    intro a b hab
    simpa using hab
  · refine (List.pairwise_lt_range 12).imp ?_
    intro a b hab
    simp only [Function.onFun]
    rw [List.disjoint_left]
    intro x hx hx'
    rcases List.mem_map.mp hx with ⟨d0, _, rfl⟩
    rcases List.mem_map.mp hx' with ⟨d1, _, hEq⟩
    have : a = b := by
      have h1 := congrArg Prod.fst hEq
      simpa using h1.symm
    omega

theorem countP_eq_one_of_nodup_mem [DecidableEq α] {l : List α} {a : α}
    (hnd : l.Nodup) (hmem : a ∈ l) : l.countP (fun b => b = a) = 1 := by
  induction l with
  | nil => cases hmem
  | cons x xs ih =>
      rcases List.nodup_cons.mp hnd with ⟨hx, hxs⟩
      rcases List.mem_cons.mp hmem with rfl | hmem'
      · rw [List.countP_cons, if_pos (by simp)]
        rw [List.countP_eq_zero.mpr]
        intro b hb
        simp only [decide_eq_true_eq]
        intro hba
        exact hx (hba ▸ hb)
      · have hne : x ≠ a := fun h => hx (h ▸ hmem')
        rw [List.countP_cons, if_neg (by simpa using hne), ih hxs hmem']

theorem mem_daysIn2024 {m d : Nat} (h1 : 1 ≤ m) (h2 : m ≤ 12) (h3 : 1 ≤ d)
    (h4 : d ≤ daysInMonth 2024 m) : (m, d) ∈ daysIn2024 := by
  simp only [daysIn2024, List.mem_flatMap, List.mem_map, List.mem_range]
  refine ⟨m - 1, by omega, d - 1, ?_, ?_⟩
  · have hm : m - 1 + 1 = m := by omega
    rw [hm]; omega
  · have hm : m - 1 + 1 = m := by omega
    have hd : d - 1 + 1 = d := by omega
    rw [hm, hd]

/-- Claim C3: for a filtered collection whose report timestamps are real
dates (no `Invalid Date` — such a date would make `format` throw — and
well-formed calendar parts), the dense daily trend exists (no error), has
exactly 366 entries for the leap year 2024, lists every 2024 calendar day
exactly once, and its counts sum to the number of incidents whose report
timestamp falls in 2024 (incidents outside 2024 are not counted). -/
theorem temporal_trends_dense_2024 (data : List Incident)
    (hinv : ∀ i ∈ data, i.reportDate ≠ DateVal.invalid)
    (hwf : ∀ i ∈ data, ∀ p, i.reportDate = DateVal.valid p → p.wf) :
    ∃ l, chartTemporalTrends data = some l
      ∧ l.length = 366
      ∧ l.map (fun t => (t.month, t.day)) = daysIn2024
      ∧ (l.map (fun t => (t.month, t.day))).Nodup
      ∧ (l.map (·.count)).sum = data.countP (fun i =>
          match i.reportDate with
          | .valid p => p.year == 2024
          | _ => false) := by
  have heta : (daysIn2024.map
      (fun md => (⟨md.1, md.2, dailyCount data md.1 md.2⟩ : TrendPoint))).map
        (fun t => (t.month, t.day)) = daysIn2024 := by
    rw [List.map_map]
    exact List.map_id _
  refine ⟨daysIn2024.map (fun md => ⟨md.1, md.2, dailyCount data md.1 md.2⟩),
    ?_, ?_, heta, ?_, ?_⟩
  · rw [chartTemporalTrends, if_pos]
    rw [List.all_eq_true]
    intro i hi
    simpa using hinv i hi
  · rw [List.length_map, daysIn2024_length]
  · rw [heta]; exact daysIn2024_nodup
  · rw [List.map_map]
    simp only [dailyCount]
    refine sum_map_countP ?_
    intro a ha
    cases hrd : a.reportDate with
    | null => simp [hrd]
    | invalid => simp [hrd]
    | valid p =>
        by_cases hy : p.year = 2024
        · have hwfp : p.wf := hwf a ha p hrd
          obtain ⟨hm1, hm2, hd1, hd2, _, _, _⟩ := hwfp
          have hy' : (p.year == 2024) = true := by simpa using hy
          simp only [hrd, hy', Bool.true_and, if_pos]
          have hmem : (p.month, p.day) ∈ daysIn2024 :=
            mem_daysIn2024 hm1 hm2 hd1 (by rwa [hy] at hd2)
          calc daysIn2024.countP (fun md => p.month == md.1 && p.day == md.2)
              = daysIn2024.countP (fun md => md = (p.month, p.day)) := by
                refine List.countP_congr ?_
                intro md hmd
                simp only [Bool.and_eq_true, beq_iff_eq, decide_eq_true_eq, Prod.ext_iff]
                omega
            _ = 1 := countP_eq_one_of_nodup_mem daysIn2024_nodup hmem
        · have hy' : (p.year == 2024) = false := by simpa using hy
          simp [hrd, hy']

/-- Witness for `temporal_trends_dense_2024` at a one-incident collection
whose report timestamp is 2024-03-05 10:30:00. -/
theorem temporal_trends_dense_2024_witness :
    ∃ l, chartTemporalTrends [{ reportDate := .valid ⟨2024, 3, 5, 10, 30, 0⟩ }] = some l
      ∧ l.length = 366
      ∧ l.map (fun t => (t.month, t.day)) = daysIn2024
      ∧ (l.map (fun t => (t.month, t.day))).Nodup
      ∧ (l.map (·.count)).sum
          = List.countP (fun i : Incident =>
              match i.reportDate with
              | .valid p => p.year == 2024
              | _ => false)
            ([{ reportDate := .valid ⟨2024, 3, 5, 10, 30, 0⟩ }] : List Incident) := by
  refine temporal_trends_dense_2024 _ ?_ ?_
  · intro i hi
    rcases List.mem_singleton.mp hi with rfl
    decide
  · intro i hi p hp
    rcases List.mem_singleton.mp hi with rfl
    injection hp with h
    rw [← h]
    decide

/-! ## Claim C5 -/

/-- Claim C5: with the canonical (= filtered) store holding exactly three
incidents of categories HOMICIDE, HOMICIDE, THEFT/OTHER, the ranked chart
data is exactly HOMICIDE (count 2, 66.7 %) then THEFT/OTHER (count 1,
33.3 %), the percentages taken of the total 3. -/
theorem crime_type_concrete_scenario :
    crimeChartData (processCrimeTypes
        [{ offense := "HOMICIDE" }, { offense := "HOMICIDE" }, { offense := "THEFT/OTHER" }]) 3
      = [⟨"HOMICIDE", 2, 667/10⟩, ⟨"THEFT/OTHER", 1, 333/10⟩] := by
  have h : processCrimeTypes
      [{ offense := "HOMICIDE" }, { offense := "HOMICIDE" }, { offense := "THEFT/OTHER" }]
      = [⟨"HOMICIDE", 2⟩, ⟨"THEFT/OTHER", 1⟩] := by decide
  rw [crimeChartData, h]
  norm_num [sortByDesc, insertByDesc, toFixed1, round_eq]

/-! ## Claim C6 -/

/-- Claim C6 (amended): the area rollup's per-category sub-counts are
restricted to the active category set, which is the FilterSpec's category
set when non-empty — but whose fallback for an empty filter is the *fixed*
`CRIME_COLORS` key list (seven hardcoded categories), not the set of
categories occurring in the data. -/
theorem active_category_restriction (data : List Incident) (filters : FilterSpec) :
    (filters.crimeTypes ≠ [] → activeCrimeTypes filters = filters.crimeTypes)
    ∧ (filters.crimeTypes = [] → activeCrimeTypes filters = crimeColorKeys)
    ∧ (∀ e ∈ neighborhoodData data filters,
        e.subCounts.map Prod.fst = activeCrimeTypes filters) := by
  refine ⟨?_, ?_, ?_⟩
  · intro h
    rw [activeCrimeTypes, if_pos]
    simpa [List.length_pos] using h
  · intro h
    rw [activeCrimeTypes, if_neg]
    simp [h]
  · intro e he
    have hproc : neighborhoodData data filters
        = (sortByDesc (·.total)
            ((neighborhoodGroups (data.filter (naFilterPred filters)) (activeCrimeTypes filters)).filter
              (fun item => item.neighborhood != "Unknown"
                && strTrim item.neighborhood != ""
                && containsCluster item.neighborhood))).take 5 := rfl
    rw [hproc] at he
    have h1 := List.Sublist.mem he (List.take_sublist 5 _)
    have h2 := (sortByDesc_perm (fun e : NbEntry => e.total) _).mem_iff.mp h1
    have h3 := (List.mem_filter.mp h2).1
    rcases List.mem_map.mp h3 with ⟨k, hk, rfl⟩
    rw [List.map_map]
    exact List.map_id _

/-- Witness for `active_category_restriction`: an empty category filter
falls back to the fixed `CRIME_COLORS` key list. -/
theorem active_category_restriction_witness :
    activeCrimeTypes { dateRange := none, crimeTypes := [], shifts := [] } = crimeColorKeys :=
  (active_category_restriction []
    { dateRange := none, crimeTypes := [], shifts := [] }).2.1 rfl

/-- Counterexample to claim C6 as stated: one incident of category `ARSON`
in `Cluster 99`, empty category filter.  The claim's "full known category
set" (categories occurring in the data) contains `ARSON`; the code's active
set does not, and consequently the rollup for `Cluster 99` records total 0
— the occurring category is ignored rather than sub-counted. -/
theorem active_category_not_data_derived_cex :
    "ARSON" ∈ specActiveSet
        ([{ offense := "ARSON", neighborhood := "Cluster 99" }] : List Incident)
        ({ } : FilterSpec)
    ∧ "ARSON" ∉ activeCrimeTypes ({ } : FilterSpec)
    ∧ (neighborhoodData ([{ offense := "ARSON", neighborhood := "Cluster 99" }] : List Incident)
        ({ } : FilterSpec)).map (·.total) = [0] := by decide

/-! ## Claim C7 -/

theorem pct_bound {num len : Nat} (h : num ≤ len) :
    0 ≤ ((num : ℚ) / (if len = 0 then 1 else (len : ℚ)) * 100)
    ∧ ((num : ℚ) / (if len = 0 then 1 else (len : ℚ)) * 100) ≤ 100 := by
  by_cases h0 : len = 0
  · subst h0
    have hnum : num = 0 := Nat.le_zero.mp h
    subst hnum
    norm_num
  · rw [if_neg h0]
    have hlen : (0 : ℚ) < len := by
      exact_mod_cast Nat.pos_of_ne_zero h0
    have h1 : (num : ℚ) ≤ (len : ℚ) := by exact_mod_cast h
    have h2 : (num : ℚ) / (len : ℚ) ≤ 1 := (div_le_one hlen).mpr h1
    have h3 : (0 : ℚ) ≤ (num : ℚ) / (len : ℚ) := by positivity
    constructor
    · nlinarith
    · nlinarith

/-- Claim C7: every area-rollup entry carries a non-"Unknown", non-blank
label that case-insensitively contains "cluster"; the rollup has at most 5
entries sorted descending by total; and both the top-areas percentage and
the property-crime percentage of the filtered total lie within [0, 100]. -/
theorem neighborhood_rollup_spec (data : List Incident) (filters : FilterSpec) :
    (neighborhoodData data filters).length ≤ 5
    ∧ (neighborhoodData data filters).Pairwise (fun a b => b.total ≤ a.total)
    ∧ (∀ e ∈ neighborhoodData data filters,
        e.neighborhood ≠ "Unknown" ∧ strTrim e.neighborhood ≠ ""
          ∧ containsCluster e.neighborhood = true)
    ∧ 0 ≤ topAreasPercentage data filters ∧ topAreasPercentage data filters ≤ 100
    ∧ 0 ≤ propertyCrimePercentage data filters
    ∧ propertyCrimePercentage data filters ≤ 100 := by
  have hproc : neighborhoodData data filters
      = (sortByDesc (·.total)
          ((neighborhoodGroups (data.filter (naFilterPred filters)) (activeCrimeTypes filters)).filter
            (fun item => item.neighborhood != "Unknown"
              && strTrim item.neighborhood != ""
              && containsCluster item.neighborhood))).take 5 := rfl
  have hlen : (neighborhoodData data filters).length ≤ 5 := by
    rw [hproc]; simp [List.length_take]
  have hsorted : (neighborhoodData data filters).Pairwise (fun a b => b.total ≤ a.total) := by
    rw [hproc]
    exact List.Pairwise.sublist (List.take_sublist 5 _) (sortByDesc_sorted _ _)
  have hlabels : ∀ e ∈ neighborhoodData data filters,
      e.neighborhood ≠ "Unknown" ∧ strTrim e.neighborhood ≠ ""
        ∧ containsCluster e.neighborhood = true := by
    intro e he
    rw [hproc] at he
    have h1 := List.Sublist.mem he (List.take_sublist 5 _)
    have h2 := (sortByDesc_perm (fun e : NbEntry => e.total) _).mem_iff.mp h1
    have h3 := (List.mem_filter.mp h2).2
    simp only [Bool.and_eq_true, bne_iff_ne, ne_eq] at h3
    exact ⟨h3.1.1, h3.1.2, h3.2⟩
  -- the totals of the rollup sum to at most the filtered count
  have hkeys_nodup :
      (firstOccKeys ((data.filter (naFilterPred filters)).map nbKey)).Nodup :=
    nodup_firstOccKeys _
  have hcount : ∀ a ∈ data.filter (naFilterPred filters),
      (firstOccKeys ((data.filter (naFilterPred filters)).map nbKey)).countP
          (fun k => nbKey a == k && a.offense != ""
            && (activeCrimeTypes filters).contains a.offense)
        = if ((firstOccKeys ((data.filter (naFilterPred filters)).map nbKey)).contains (nbKey a)
              && (a.offense != "" && (activeCrimeTypes filters).contains a.offense))
          then 1 else 0 := by
    intro a ha
    by_cases hP : (a.offense != "" && (activeCrimeTypes filters).contains a.offense) = true
    · have hP' := hP
      rw [Bool.and_eq_true] at hP'
      obtain ⟨hP1, hP2⟩ := hP'
      have heq : ∀ k, (nbKey a == k && a.offense != ""
            && (activeCrimeTypes filters).contains a.offense) = (nbKey a == k) := by
        intro k
        rw [Bool.and_assoc, hP1, hP2]
        simp
      by_cases hmem : nbKey a ∈ firstOccKeys ((data.filter (naFilterPred filters)).map nbKey)
      · have hc : (firstOccKeys ((data.filter (naFilterPred filters)).map nbKey)).contains (nbKey a) = true := by
          simpa using hmem
        rw [hc, hP, if_pos (by simp)]
        calc (firstOccKeys ((data.filter (naFilterPred filters)).map nbKey)).countP
              (fun k => nbKey a == k && a.offense != ""
                && (activeCrimeTypes filters).contains a.offense)
            = (firstOccKeys ((data.filter (naFilterPred filters)).map nbKey)).countP
                (fun k => k = nbKey a) := by
              refine List.countP_congr ?_
              intro k hk
              rw [heq k]
              simp only [beq_iff_eq, decide_eq_true_eq]
              exact eq_comm
          _ = 1 := countP_eq_one_of_nodup_mem hkeys_nodup hmem
      · have hc : ¬ (firstOccKeys ((data.filter (naFilterPred filters)).map nbKey)).contains (nbKey a) = true := by
          simpa using hmem
        rw [if_neg (by
          intro hcond
          rw [Bool.and_eq_true] at hcond
          exact hc hcond.1)]
        refine List.countP_eq_zero.mpr ?_
        intro k hk hkeq
        rw [heq k] at hkeq
        exact hmem ((beq_iff_eq.mp hkeq) ▸ hk)
    · rw [if_neg (by
        intro hcond
        rw [Bool.and_eq_true] at hcond
        exact hP hcond.2)]
      refine List.countP_eq_zero.mpr ?_
      intro k hk hkeq
      rw [Bool.and_eq_true] at hkeq
      obtain ⟨hkeq1, hkeq2⟩ := hkeq
      rw [Bool.and_eq_true] at hkeq1
      exact hP (by rw [hkeq1.2, hkeq2]; simp)
  have hsum_groups :
      (((neighborhoodGroups (data.filter (naFilterPred filters)) (activeCrimeTypes filters))).map
          (·.total)).sum
        = (data.filter (naFilterPred filters)).countP
            (fun a => (firstOccKeys ((data.filter (naFilterPred filters)).map nbKey)).contains (nbKey a)
              && (a.offense != "" && (activeCrimeTypes filters).contains a.offense)) := by
    rw [neighborhoodGroups, List.map_map]
    exact sum_map_countP hcount
  have hS : ((neighborhoodData data filters).map (·.total)).sum
      ≤ (data.filter (naFilterPred filters)).length := by
    rw [hproc]
    have hsub1 : ((((sortByDesc (·.total)
        ((neighborhoodGroups (data.filter (naFilterPred filters)) (activeCrimeTypes filters)).filter
          (fun item => item.neighborhood != "Unknown"
            && strTrim item.neighborhood != ""
            && containsCluster item.neighborhood))).take 5)).map (·.total)).Sublist
        ((sortByDesc (·.total)
          ((neighborhoodGroups (data.filter (naFilterPred filters)) (activeCrimeTypes filters)).filter
            (fun item => item.neighborhood != "Unknown"
              && strTrim item.neighborhood != ""
              && containsCluster item.neighborhood))).map (·.total)) :=
      List.Sublist.map _ (List.take_sublist 5 _)
    refine le_trans (List.Sublist.sum_le_sum hsub1 (fun a _ => Nat.zero_le a)) ?_
    have hperm := sortByDesc_perm (fun e : NbEntry => e.total)
        ((neighborhoodGroups (data.filter (naFilterPred filters)) (activeCrimeTypes filters)).filter
          (fun item => item.neighborhood != "Unknown"
            && strTrim item.neighborhood != ""
            && containsCluster item.neighborhood))
    rw [(hperm.map (fun e : NbEntry => e.total)).sum_eq]
    have hsub2 : (((neighborhoodGroups (data.filter (naFilterPred filters)) (activeCrimeTypes filters)).filter
          (fun item => item.neighborhood != "Unknown"
            && strTrim item.neighborhood != ""
            && containsCluster item.neighborhood)).map (·.total)).Sublist
        ((neighborhoodGroups (data.filter (naFilterPred filters)) (activeCrimeTypes filters)).map (·.total)) :=
      List.Sublist.map _ (List.filter_sublist _)
    refine le_trans (List.Sublist.sum_le_sum hsub2 (fun a _ => Nat.zero_le a)) ?_
    rw [hsum_groups]
    exact List.countP_le_length _
  have htop : 0 ≤ topAreasPercentage data filters ∧ topAreasPercentage data filters ≤ 100 := by
    unfold topAreasPercentage nbTotalIncidents
    exact pct_bound hS
  have hprop : 0 ≤ propertyCrimePercentage data filters
      ∧ propertyCrimePercentage data filters ≤ 100 := by
    unfold propertyCrimePercentage nbTotalIncidents
    exact pct_bound (List.countP_le_length _)
  exact ⟨hlen, hsorted, hlabels, htop.1, htop.2, hprop.1, hprop.2⟩

/-- Witness for `neighborhood_rollup_spec` at a concrete two-incident
collection and the empty filter. -/
theorem neighborhood_rollup_spec_witness :
    (neighborhoodData
        ([{ offense := "HOMICIDE", neighborhood := "Cluster 2" },
          { offense := "ROBBERY", neighborhood := "Cluster 3" }] : List Incident)
        ({ } : FilterSpec)).length ≤ 5
    ∧ 0 ≤ topAreasPercentage
        ([{ offense := "HOMICIDE", neighborhood := "Cluster 2" },
          { offense := "ROBBERY", neighborhood := "Cluster 3" }] : List Incident)
        ({ } : FilterSpec)
    ∧ propertyCrimePercentage
        ([{ offense := "HOMICIDE", neighborhood := "Cluster 2" },
          { offense := "ROBBERY", neighborhood := "Cluster 3" }] : List Incident)
        ({ } : FilterSpec) ≤ 100 :=
  ⟨(neighborhood_rollup_spec
      ([{ offense := "HOMICIDE", neighborhood := "Cluster 2" },
        { offense := "ROBBERY", neighborhood := "Cluster 3" }] : List Incident)
      ({ } : FilterSpec)).1,
   (neighborhood_rollup_spec
      ([{ offense := "HOMICIDE", neighborhood := "Cluster 2" },
        { offense := "ROBBERY", neighborhood := "Cluster 3" }] : List Incident)
      ({ } : FilterSpec)).2.2.2.1,
   (neighborhood_rollup_spec
      ([{ offense := "HOMICIDE", neighborhood := "Cluster 2" },
        { offense := "ROBBERY", neighborhood := "Cluster 3" }] : List Incident)
      ({ } : FilterSpec)).2.2.2.2.2.2⟩

/-! ## Claim C8 -/

/-- Claim C8 (amended): the demographic load fails as a whole exactly when
some required reference table fails to load; absence of the fixed
target-region key from a table is *not* fatal — the load still succeeds
(see the counterexample for the partial result it then publishes). -/
theorem census_load_all_or_nothing (files : RawCensusFiles) :
    (loadCensusData files).isOk
      = (files.income.isSome && files.education.isSome && files.race.isSome
          && files.poverty.isSome && files.value.isSome && files.mobility.isSome
          && files.transportation.isSome && files.tenure.isSome) := by
  obtain ⟨i, e, r, p, v, m, t, te⟩ := files
  cases i <;> cases e <;> cases r <;> cases p <;> cases v <;> cases m <;> cases t
    <;> cases te <;> rfl

/-- Counterexample to claim C8 as stated: all eight reference tables load,
but the education table has no row for the target region.  The claim says
the load must fail as a whole; instead it succeeds, the education
extraction is the empty record, and the derived higher-education
percentage silently falls back to 0 — a partial demographic result. -/
theorem census_missing_region_not_fatal_cex :
    (loadCensusData
        { income := some [], education := some [⟨"05000US11001", [("B15002001", 100), ("B15002015", 50)]⟩],
          race := some [], poverty := some [], value := some [],
          mobility := some [], transportation := some [], tenure := some [] }).isOk = true
    ∧ (loadCensusData
        { income := some [], education := some [⟨"05000US11001", [("B15002001", 100), ("B15002015", 50)]⟩],
          race := some [], poverty := some [], value := some [],
          mobility := some [], transportation := some [], tenure := some [] }).map
        (fun r => r.education) = .ok none
    ∧ (loadCensusData
        { income := some [], education := some [⟨"05000US11001", [("B15002001", 100), ("B15002015", 50)]⟩],
          race := some [], poverty := some [], value := some [],
          mobility := some [], transportation := some [], tenure := some [] }).map
        (fun r => r.derivedMetrics.higherEducationPercentage) = .ok 0 := by
  refine ⟨rfl, ?_, ?_⟩
  · simp [loadCensusData, processCensusData, extractDataForDC, dcGeoid, List.find?,
      Except.map]
  · simp [loadCensusData, processCensusData, calculateDerivedMetrics, extractDataForDC,
      getF, CRow.get, dcGeoid, higherEducationFields, highValueFields, List.find?,
      Except.map]

/-! ## Claim C9 -/

/-- Claim C9 (amended): the diversity index equals 1 minus the sum of the
squared tracked-group shares (each share is group / total when the total
population field is positive, else 0); whenever the four group counts are
nonnegative and sum to at most the total it lies in [0, 1] — the closed
upper end included: it equals 1 whenever the total is 0 (see the
counterexample), so it is not always strictly below 1. -/
theorem diversity_index_bounds (rawData : LoadedTables) (geoid : String)
    (hW : 0 ≤ getF (extractDataForDC rawData.race geoid) "B03002003")
    (hB : 0 ≤ getF (extractDataForDC rawData.race geoid) "B03002004")
    (hA : 0 ≤ getF (extractDataForDC rawData.race geoid) "B03002006")
    (hH : 0 ≤ getF (extractDataForDC rawData.race geoid) "B03002012")
    (hsum : getF (extractDataForDC rawData.race geoid) "B03002003"
        + getF (extractDataForDC rawData.race geoid) "B03002004"
        + getF (extractDataForDC rawData.race geoid) "B03002006"
        + getF (extractDataForDC rawData.race geoid) "B03002012"
      ≤ getF (extractDataForDC rawData.race geoid) "B03002001") :
    (calculateDerivedMetrics rawData geoid).diversityIndex
      = 1 - ((if 0 < getF (extractDataForDC rawData.race geoid) "B03002001"
              then getF (extractDataForDC rawData.race geoid) "B03002003"
                / getF (extractDataForDC rawData.race geoid) "B03002001" else 0) ^ 2
           + (if 0 < getF (extractDataForDC rawData.race geoid) "B03002001"
              then getF (extractDataForDC rawData.race geoid) "B03002004"
                / getF (extractDataForDC rawData.race geoid) "B03002001" else 0) ^ 2
           + (if 0 < getF (extractDataForDC rawData.race geoid) "B03002001"
              then getF (extractDataForDC rawData.race geoid) "B03002006"
                / getF (extractDataForDC rawData.race geoid) "B03002001" else 0) ^ 2
           + (if 0 < getF (extractDataForDC rawData.race geoid) "B03002001"
              then getF (extractDataForDC rawData.race geoid) "B03002012"
                / getF (extractDataForDC rawData.race geoid) "B03002001" else 0) ^ 2)
    ∧ 0 ≤ (calculateDerivedMetrics rawData geoid).diversityIndex
    ∧ (calculateDerivedMetrics rawData geoid).diversityIndex ≤ 1 := by
  have hidx : (calculateDerivedMetrics rawData geoid).diversityIndex
      = 1 - ((if 0 < getF (extractDataForDC rawData.race geoid) "B03002001"
              then getF (extractDataForDC rawData.race geoid) "B03002003"
                / getF (extractDataForDC rawData.race geoid) "B03002001" else 0) ^ 2
           + (if 0 < getF (extractDataForDC rawData.race geoid) "B03002001"
              then getF (extractDataForDC rawData.race geoid) "B03002004"
                / getF (extractDataForDC rawData.race geoid) "B03002001" else 0) ^ 2
           + (if 0 < getF (extractDataForDC rawData.race geoid) "B03002001"
              then getF (extractDataForDC rawData.race geoid) "B03002006"
                / getF (extractDataForDC rawData.race geoid) "B03002001" else 0) ^ 2
           + (if 0 < getF (extractDataForDC rawData.race geoid) "B03002001"
              then getF (extractDataForDC rawData.race geoid) "B03002012"
                / getF (extractDataForDC rawData.race geoid) "B03002001" else 0) ^ 2) := rfl
  refine ⟨hidx, ?_, ?_⟩
  · rw [hidx]
    by_cases hT : 0 < getF (extractDataForDC rawData.race geoid) "B03002001"
    · rw [if_pos hT, if_pos hT, if_pos hT, if_pos hT]
      have hTle := le_of_lt hT
      have hw := div_nonneg hW hTle
      have hb := div_nonneg hB hTle
      have ha := div_nonneg hA hTle
      have hh := div_nonneg hH hTle
      have hsum' : getF (extractDataForDC rawData.race geoid) "B03002003"
            / getF (extractDataForDC rawData.race geoid) "B03002001"
          + getF (extractDataForDC rawData.race geoid) "B03002004"
            / getF (extractDataForDC rawData.race geoid) "B03002001"
          + getF (extractDataForDC rawData.race geoid) "B03002006"
            / getF (extractDataForDC rawData.race geoid) "B03002001"
          + getF (extractDataForDC rawData.race geoid) "B03002012"
            / getF (extractDataForDC rawData.race geoid) "B03002001" ≤ 1 := by
        rw [div_add_div_same, div_add_div_same, div_add_div_same]
        exact (div_le_one hT).mpr hsum
      nlinarith [mul_nonneg hw hb, mul_nonneg hw ha, mul_nonneg hw hh,
        mul_nonneg hb ha, mul_nonneg hb hh, mul_nonneg ha hh]
    · rw [if_neg hT, if_neg hT, if_neg hT, if_neg hT]
      norm_num
  · rw [hidx]
    by_cases hT : 0 < getF (extractDataForDC rawData.race geoid) "B03002001"
    · rw [if_pos hT, if_pos hT, if_pos hT, if_pos hT]
      nlinarith [sq_nonneg (getF (extractDataForDC rawData.race geoid) "B03002003"
          / getF (extractDataForDC rawData.race geoid) "B03002001"),
        sq_nonneg (getF (extractDataForDC rawData.race geoid) "B03002004"
          / getF (extractDataForDC rawData.race geoid) "B03002001"),
        sq_nonneg (getF (extractDataForDC rawData.race geoid) "B03002006"
          / getF (extractDataForDC rawData.race geoid) "B03002001"),
        sq_nonneg (getF (extractDataForDC rawData.race geoid) "B03002012"
          / getF (extractDataForDC rawData.race geoid) "B03002001")]
    · rw [if_neg hT, if_neg hT, if_neg hT, if_neg hT]
      norm_num

/-- Witness for `diversity_index_bounds` on a race table whose target-region
row has total 100 and group counts 30/30/20/10. -/
theorem diversity_index_bounds_witness :
    0 ≤ (calculateDerivedMetrics
        { race := [⟨"16000US1150000",
            [("B03002001", 100), ("B03002003", 30), ("B03002004", 30),
             ("B03002006", 20), ("B03002012", 10)]⟩] } "16000US1150000").diversityIndex
    ∧ (calculateDerivedMetrics
        { race := [⟨"16000US1150000",
            [("B03002001", 100), ("B03002003", 30), ("B03002004", 30),
             ("B03002006", 20), ("B03002012", 10)]⟩] } "16000US1150000").diversityIndex ≤ 1 := by
  have h := diversity_index_bounds
    { race := [⟨"16000US1150000",
        [("B03002001", 100), ("B03002003", 30), ("B03002004", 30),
         ("B03002006", 20), ("B03002012", 10)]⟩] } "16000US1150000"
    (by decide) (by decide) (by decide) (by decide)
    (by
      rw [show getF (extractDataForDC ({ race := [⟨"16000US1150000",
            [("B03002001", 100), ("B03002003", 30), ("B03002004", 30),
             ("B03002006", 20), ("B03002012", 10)]⟩] } : LoadedTables).race
            "16000US1150000") "B03002003" = (30 : ℚ) from rfl,
        show getF (extractDataForDC ({ race := [⟨"16000US1150000",
            [("B03002001", 100), ("B03002003", 30), ("B03002004", 30),
             ("B03002006", 20), ("B03002012", 10)]⟩] } : LoadedTables).race
            "16000US1150000") "B03002004" = (30 : ℚ) from rfl,
        show getF (extractDataForDC ({ race := [⟨"16000US1150000",
            [("B03002001", 100), ("B03002003", 30), ("B03002004", 30),
             ("B03002006", 20), ("B03002012", 10)]⟩] } : LoadedTables).race
            "16000US1150000") "B03002006" = (20 : ℚ) from rfl,
        show getF (extractDataForDC ({ race := [⟨"16000US1150000",
            [("B03002001", 100), ("B03002003", 30), ("B03002004", 30),
             ("B03002006", 20), ("B03002012", 10)]⟩] } : LoadedTables).race
            "16000US1150000") "B03002012" = (10 : ℚ) from rfl,
        show getF (extractDataForDC ({ race := [⟨"16000US1150000",
            [("B03002001", 100), ("B03002003", 30), ("B03002004", 30),
             ("B03002006", 20), ("B03002012", 10)]⟩] } : LoadedTables).race
            "16000US1150000") "B03002001" = (100 : ℚ) from rfl]
      norm_num)
  exact ⟨h.2.1, h.2.2⟩

/-- Counterexample to claim C9 as stated: a race table whose target-region
row reports a total population of 0.  Every share is then 0 and the
diversity index is exactly 1, outside the claimed half-open interval
[0, 1). -/
theorem diversity_index_one_cex :
    (calculateDerivedMetrics
        { race := [⟨"16000US1150000", [("B03002001", 0)]⟩] } "16000US1150000").diversityIndex
      = 1 := by
  norm_num [calculateDerivedMetrics, extractDataForDC, getF, CRow.get, List.find?,
    List.lookup]

/-! ## Claim C10 -/

theorem trimChars_append_space (xs : List Char) :
    trimChars (xs ++ [' ']) = trimChars xs := by
  unfold trimChars
  rw [List.dropWhile_append]
  by_cases h : (xs.dropWhile isWS).isEmpty
  · rw [if_pos h]
    have h2 : xs.dropWhile isWS = [] := by simpa using h
    rw [h2]
    rfl
  · rw [if_neg h]
    rw [List.reverse_append]
    have h3 : ([' '] : List Char).reverse = [' '] := rfl
    rw [h3, List.singleton_append, List.dropWhile_cons]
    simp [isWS]

theorem scanRow_quoted (s : List Char) (h : '"' ∉ s) :
    ∀ cur, scanRow (s ++ ['"', ' ']) true cur = [trimChars (cur ++ s)] := by
  induction s with
  | nil =>
      intro cur
      simp only [List.nil_append, List.append_nil]
      rw [show scanRow ['"', ' '] true cur = scanRow [' '] false cur from rfl]
      rw [show scanRow [' '] false cur = [trimChars (cur ++ [' '])] from rfl]
      rw [trimChars_append_space]
  | cons c cs ih =>
      intro cur
      have hc : (c == '"') = false := by
        simp only [beq_eq_false_iff_ne, ne_eq]
        intro hcc
        exact h (hcc ▸ List.mem_cons_self c cs)
      have hmem : '"' ∉ cs := fun hm => h (List.mem_cons_of_mem c hm)
      rw [List.cons_append, scanRow, hc]
      have hrest : (cs ++ ['"', ' ']).isEmpty = false := by
        cases cs <;> rfl
      simp only [Bool.false_eq_true, if_false, Bool.not_true, Bool.and_false, hrest]
      rw [ih hmem (cur ++ [c])]
      simp

theorem stripLeadQuote_no_quote {s : List Char} (hq : '"' ∉ s) :
    stripLeadQuote s = s := by
  cases s with
  | nil => rfl
  | cons c cs =>
      have hc : c ≠ '"' := fun h => hq (h ▸ List.mem_cons_self c cs)
      simp [stripLeadQuote, hc]

theorem stripWrapQuotes_no_quote {s : List Char} (hq : '"' ∉ s) :
    stripWrapQuotes s = s := by
  unfold stripWrapQuotes
  rw [stripLeadQuote_no_quote hq,
    stripLeadQuote_no_quote (by simpa using hq), List.reverse_reverse]

theorem trimChars_idem_of_fixed {s : List Char} (hts : trimChars s = s) :
    trimChars (trimChars s) = s := by rw [hts, hts]

/-- Claim C10: a field wrapped in double quotes, containing any characters
other than a quote (commas included), decodes to exactly one field holding
the unquoted content: the embedded delimiter does not split it and the
wrapping quotes are stripped.  (`trimChars s = s` states the content
carries no leading/trailing whitespace, as in the claim's example.) -/
theorem parse_quoted_embedded_comma (s : List Char) (hq : '"' ∉ s)
    (hts : trimChars s = s) :
    parseRow ⟨'"' :: (s ++ ['"'])⟩ = [⟨s⟩] := by
  rw [parseRow]
  have hdata : (⟨'"' :: (s ++ ['"'])⟩ : String).data ++ [' ']
      = '"' :: (s ++ ['"', ' ']) := by
    simp
  rw [hdata, scanRow]
  norm_num [scanRow_quoted s hq, hts, stripWrapQuotes_no_quote hq]

/-- Witness for `parse_quoted_embedded_comma` at the spec's example row
`"123, Main St"`: one field, value `123, Main St`. -/
theorem parse_quoted_embedded_comma_witness :
    parseRow "\"123, Main St\"" = ["123, Main St"] := by
  have h := parse_quoted_embedded_comma "123, Main St".data (by decide) (by decide)
  exact h

end CrimeDash
